import Mathlib

/-!
Verification of the warehouse inventory system: the per-node in-memory
store (inventory_store.py), the gRPC adapter (inventory_server.py) and
the client-side router and cluster facade (distributed_inventory.py),
shallowly embedded as pure Lean functions with explicit state passing.
-/

set_option maxRecDepth 4096

/-! ## Data model: the Item message and the store state -/

/-- The protobuf Item message: sku, name, description, quantity. -/
structure Item where
  sku : String
  name : String
  description : String
  quantity : Int
deriving DecidableEq, Repr

/-- Store-level errors: ValueError and the InventoryError subclasses. -/
inductive StoreError where
  | invalidArgument (msg : String)
  | alreadyExists (msg : String)
  | notFound (msg : String)
  | insufficientQuantity (msg : String)
deriving DecidableEq, Repr

/-- gRPC status codes used by the service adapter. -/
inductive StatusCode where
  | invalidArgument
  | alreadyExists
  | notFound
  | failedPrecondition
deriving DecidableEq, Repr

/-- Whitespace characters removed by the strip method on ASCII input. -/
def isPySpace (c : Char) : Bool :=
  c = ' ' || c = '\t' || c = '\n' || c = '\r' || c = '\x0B' || c = '\x0C'

/-- Model of the strip method: drop whitespace from both ends. -/
def pyStrip (s : String) : String :=
  String.mk (((s.data.dropWhile isPySpace).reverse.dropWhile isPySpace).reverse)

/-- The store state: the dict mapping sku keys to Item records,
as an association list in insertion order. -/
abbrev Store : Type := List (String × Item)

/-- Dict key lookup. -/
def lookupSku (st : Store) (sku : String) : Option Item :=
  match st with
  | [] => none
  | (k, v) :: rest => if k = sku then some v else lookupSku rest sku

/-- In-place mutation of the record stored under a key, as done by the
update and take operations through the reference held into the dict. -/
def setItem (st : Store) (sku : String) (v : Item) : Store :=
  match st with
  | [] => []
  | (k, w) :: rest => (if k = sku then (sku, v) else (k, w)) :: setItem rest sku v

/-! ## InventoryStore operations (inventory_store.py)

Each operation returns the result of the call (the returned Item copy or
the raised error) together with the store state after the call, so that
mutations that happen before an exception is raised are visible. -/

/-- add_item: validate sku and quantity, reject duplicates, store a
normalized copy with the trimmed sku. -/
def addItem (st : Store) (item : Item) : Except StoreError Item × Store :=
  let sku := pyStrip item.sku
  if sku = "" then
    (.error (.invalidArgument "SKU must not be empty"), st)
  else if item.quantity < 0 then
    (.error (.invalidArgument "Quantity must be non-negative"), st)
  else
    match lookupSku st sku with
    | some _ => (.error (.alreadyExists ("Item " ++ sku ++ " already exists")), st)
    | none =>
      let stored := { item with sku := sku }
      (.ok stored, st ++ [(sku, stored)])

/-- update_item: field-level merge on the stored record. The source
assigns name and description to the stored record before validating a
provided quantity, so those assignments survive a quantity ValueError. -/
def updateItem (st : Store) (sku₀ : String) (name : Option String)
    (description : Option String) (quantity : Option Int) :
    Except StoreError Item × Store :=
  let sku := pyStrip sku₀
  if sku = "" then
    (.error (.invalidArgument "SKU must not be empty"), st)
  else
    match lookupSku st sku with
    | none => (.error (.notFound ("Item " ++ sku ++ " not found")), st)
    | some item₀ =>
      let item₁ := match name with
        | some n => { item₀ with name := n }
        | none => item₀
      let item₂ := match description with
        | some d => { item₁ with description := d }
        | none => item₁
      match quantity with
      | some q =>
        if q < 0 then
          (.error (.invalidArgument "Quantity must be non-negative"), setItem st sku item₂)
        else
          (.ok { item₂ with quantity := q }, setItem st sku { item₂ with quantity := q })
      | none => (.ok item₂, setItem st sku item₂)

/-- take_item: validate, then decrement quantity by amount if enough
stock is available; no state change on the insufficient-quantity path. -/
def takeItem (st : Store) (sku₀ : String) (amount : Int) :
    Except StoreError Item × Store :=
  let sku := pyStrip sku₀
  if sku = "" then
    (.error (.invalidArgument "SKU must not be empty"), st)
  else if amount ≤ 0 then
    (.error (.invalidArgument "Take amount must be positive"), st)
  else
    match lookupSku st sku with
    | none => (.error (.notFound ("Item " ++ sku ++ " not found")), st)
    | some item =>
      if item.quantity < amount then
        (.error (.insufficientQuantity
          ("Item " ++ sku ++ " has insufficient quantity (" ++
            toString item.quantity ++ " < " ++ toString amount ++ ")")), st)
      else
        let updated := { item with quantity := item.quantity - amount }
        (.ok updated, setItem st sku updated)

/-- query_item: validate the sku and return a copy of the record. -/
def queryItem (st : Store) (sku₀ : String) : Except StoreError Item × Store :=
  let sku := pyStrip sku₀
  if sku = "" then
    (.error (.invalidArgument "SKU must not be empty"), st)
  else
    match lookupSku st sku with
    | none => (.error (.notFound ("Item " ++ sku ++ " not found")), st)
    | some item => (.ok item, st)

/-- clear: remove all entries. -/
def clearStore (_st : Store) : Store := []

example : (addItem [] ⟨"A", "n", "d", 5⟩).1 = .ok ⟨"A", "n", "d", 5⟩ := rfl

example :
    (takeItem [("A", ⟨"A", "n", "d", 5⟩)] "A" 2).1 = .ok ⟨"A", "n", "d", 3⟩ := rfl

/-! ## Service adapter (inventory_server.py)

The gRPC request messages and the InventoryService handlers. A handler
either returns the response Item or aborts the call with a status code;
the store state after the handler is returned alongside. -/

/-- AddItemRequest message. -/
structure AddItemRequest where
  item : Item
deriving DecidableEq, Repr

/-- UpdateItemRequest message (proto3: all fields always present,
absent fields read as their zero value). -/
structure UpdateItemRequest where
  sku : String
  name : String
  description : String
  quantity : Int
deriving DecidableEq, Repr

/-- TakeItemRequest message. -/
structure TakeItemRequest where
  sku : String
  amount : Int
deriving DecidableEq, Repr

/-- QueryItemRequest message. -/
structure QueryItemRequest where
  sku : String
deriving DecidableEq, Repr

/-- Call metadata: an ordered sequence of key/value pairs. -/
abbrev CallMetadata : Type := List (String × String)

/-- ASCII lowercase of one character, as the lower method acts on it. -/
def asciiLower (c : Char) : Char :=
  if 'A' ≤ c ∧ c ≤ 'Z' then Char.ofNat (c.toNat + 32) else c

/-- Model of the lower method on ASCII input. -/
def strLower (s : String) : String := String.mk (s.data.map asciiLower)

/-- Model of the metadata dict comprehension followed by a get: keys
are lowercased and a later entry overwrites an earlier one. -/
def metaGet (md : CallMetadata) (key : String) : Option String :=
  match md with
  | [] => none
  | (k, v) :: rest =>
    match metaGet rest key with
    | some v' => some v'
    | none => if strLower k = key then some v else none

/-- The UpdateItem forcing flag: metadata value for update-quantity,
lowercased, among the accepted truthy spellings. -/
def forceQuantityFlag (md : CallMetadata) : Bool :=
  let v := strLower ((metaGet md "update-quantity").getD "")
  v = "1" || v = "true" || v = "yes"

/-- The 1:1 mapping from store errors to gRPC status codes performed by
the handlers in their except clauses. -/
def storeErrorToStatus : StoreError → StatusCode
  | .invalidArgument _ => .invalidArgument
  | .alreadyExists _ => .alreadyExists
  | .notFound _ => .notFound
  | .insufficientQuantity _ => .failedPrecondition

/-- InventoryService.AddItem handler. -/
def serviceAddItem (st : Store) (req : AddItemRequest) :
    Except StatusCode Item × Store :=
  match addItem st req.item with
  | (.ok item, st') => (.ok item, st')
  | (.error e, st') => (.error (storeErrorToStatus e), st')

/-- InventoryService.UpdateItem handler: empty-string name and
description read as not provided; quantity reads as not provided
exactly when it is 0 and the forcing flag is absent. -/
def serviceUpdateItem (st : Store) (md : CallMetadata) (req : UpdateItemRequest) :
    Except StatusCode Item × Store :=
  let force := forceQuantityFlag md
  let name := if req.name = "" then none else some req.name
  let description := if req.description = "" then none else some req.description
  let quantity := if force || req.quantity ≠ 0 then some req.quantity else none
  match updateItem st req.sku name description quantity with
  | (.ok item, st') => (.ok item, st')
  | (.error e, st') => (.error (storeErrorToStatus e), st')

/-- InventoryService.TakeItem handler. -/
def serviceTakeItem (st : Store) (req : TakeItemRequest) :
    Except StatusCode Item × Store :=
  match takeItem st req.sku req.amount with
  | (.ok item, st') => (.ok item, st')
  | (.error e, st') => (.error (storeErrorToStatus e), st')

/-- InventoryService.QueryItem handler. -/
def serviceQueryItem (st : Store) (req : QueryItemRequest) :
    Except StatusCode Item × Store :=
  match queryItem st req.sku with
  | (.ok item, st') => (.ok item, st')
  | (.error e, st') => (.error (storeErrorToStatus e), st')

/-! ## Cluster facade update (distributed_inventory.py)

The facade update_item against the node that owns the sku: query the
current Item, fill omitted fields from it, then call UpdateItem with the
update-quantity forcing flag appended to the caller metadata. -/

/-- _extend_metadata: concatenate caller metadata with the extra pairs. -/
def extendMetadata (md extra : CallMetadata) : CallMetadata := md ++ extra

/-- DistributedInventoryClient.update_item composed with the owning
node's handlers (read then write against the same store). -/
def facadeUpdateItem (st : Store) (sku : String) (name : Option String)
    (description : Option String) (quantity : Option Int) (md : CallMetadata) :
    Except StatusCode Item × Store :=
  match serviceQueryItem st ⟨sku⟩ with
  | (.error e, st') => (.error e, st')
  | (.ok current, st') =>
    let name' := name.getD current.name
    let description' := description.getD current.description
    let quantity' := quantity.getD current.quantity
    serviceUpdateItem st' (extendMetadata md [("update-quantity", "true")])
      ⟨sku, name', description', quantity'⟩

example :
    (serviceUpdateItem [("A", ⟨"A", "n", "d", 5⟩)] [] ⟨"A", "", "", 0⟩).1
      = .ok ⟨"A", "n", "d", 5⟩ := rfl

example :
    (serviceUpdateItem [("A", ⟨"A", "n", "d", 5⟩)]
        [("update-quantity", "true")] ⟨"A", "", "", 0⟩).1
      = .ok ⟨"A", "n", "d", 0⟩ := rfl

example :
    (facadeUpdateItem [("A", ⟨"A", "n", "d", 5⟩)] "A" none none (some 0) []).1
      = .ok ⟨"A", "n", "d", 0⟩ := rfl

/-! ## SHA-256 (FIPS 180-4), over byte lists with Nat words mod 2^32

The router hashes the UTF-8 sku bytes with hashlib sha256; the digest
computation is embedded here in full so the routing function is
executable. -/

/-- Truncate to a 32-bit word. -/
def w32 (n : Nat) : Nat := n % 4294967296

/-- Rotate a 32-bit word right by n bits. -/
def rotr (n x : Nat) : Nat := w32 ((x >>> n) ||| (x <<< (32 - n)))

/-- Ch(x, y, z), with 32-bit complement written as xor with the mask. -/
def sha256Ch (x y z : Nat) : Nat := (x &&& y) ^^^ ((x ^^^ 4294967295) &&& z)

/-- Maj(x, y, z). -/
def sha256Maj (x y z : Nat) : Nat := (x &&& y) ^^^ ((x &&& z) ^^^ (y &&& z))

/-- Σ0. -/
def bigSigma0 (x : Nat) : Nat := rotr 2 x ^^^ rotr 13 x ^^^ rotr 22 x

/-- Σ1. -/
def bigSigma1 (x : Nat) : Nat := rotr 6 x ^^^ rotr 11 x ^^^ rotr 25 x

/-- σ0. -/
def smallSigma0 (x : Nat) : Nat := rotr 7 x ^^^ rotr 18 x ^^^ (x >>> 3)

/-- σ1. -/
def smallSigma1 (x : Nat) : Nat := rotr 17 x ^^^ rotr 19 x ^^^ (x >>> 10)

/-- The 64 round constants, written in decimal. -/
def sha256K : List Nat :=
  [1116352408, 1899447441, 3049323471, 3921009573, 961987163, 1508970993,
   2453635748, 2870763221, 3624381080, 310598401, 607225278, 1426881987,
   1925078388, 2162078206, 2614888103, 3248222580, 3835390401, 4022224774,
   264347078, 604807628, 770255983, 1249150122, 1555081692, 1996064986,
   2554220882, 2821834349, 2952996808, 3210313671, 3336571891, 3584528711,
   113926993, 338241895, 666307205, 773529912, 1294757372, 1396182291,
   1695183700, 1986661051, 2177026350, 2456956037, 2730485921, 2820302411,
   3259730800, 3345764771, 3516065817, 3600352804, 4094571909, 275423344,
   430227734, 506948616, 659060556, 883997877, 958139571, 1322822218,
   1537002063, 1747873779, 1955562222, 2024104815, 2227730452, 2361852424,
   2428436474, 2756734187, 3204031479, 3329325298]

/-- The initial hash value, written in decimal. -/
def sha256H0 : List Nat :=
  [1779033703, 3144134277, 1013904242, 2773480762,
   1359893119, 2600822924, 528734635, 1541459225]

/-- Big-endian bytes of a value, fixed width in bytes. -/
def toBytesBE : Nat → Nat → List Nat
  | 0, _ => []
  | k + 1, n => toBytesBE k (n >>> 8) ++ [n % 256]

/-- Unsigned big-endian integer of a byte list. -/
def natFromBytesBE (bs : List Nat) : Nat :=
  bs.foldl (fun acc b => acc * 256 + b) 0

/-- SHA-256 padding: append 0x80, zeros to 56 mod 64, then the bit
length as an 8-byte big-endian integer. -/
def padMessage (msg : List Nat) : List Nat :=
  let len := msg.length
  msg ++ [0x80] ++ List.replicate ((119 - len % 64) % 64) 0 ++ toBytesBE 8 (8 * len)

/-- Group bytes into big-endian 32-bit words. -/
def bytesToWords : List Nat → List Nat
  | b0 :: b1 :: b2 :: b3 :: rest =>
    (((b0 * 256 + b1) * 256 + b2) * 256 + b3) :: bytesToWords rest
  | _ => []

/-- Split a byte list into 64-byte blocks, with enough fuel. -/
def splitChunksAux : Nat → List Nat → List (List Nat)
  | 0, _ => []
  | _, [] => []
  | fuel + 1, l => l.take 64 :: splitChunksAux fuel (l.drop 64)

/-- Split the padded message into 64-byte blocks. -/
def splitChunks (l : List Nat) : List (List Nat) := splitChunksAux l.length l

/-- Extend the 16 message words by one scheduled word, n times. -/
def extendSchedule (w : List Nat) : Nat → List Nat
  | 0 => w
  | n + 1 =>
    let w' := extendSchedule w n
    let t := w'.length
    w' ++ [w32 (smallSigma1 (w'.getD (t - 2) 0) + w'.getD (t - 7) 0 +
                smallSigma0 (w'.getD (t - 15) 0) + w'.getD (t - 16) 0)]

/-- The full 64-entry message schedule of one block. -/
def fullSchedule (m : List Nat) : List Nat := extendSchedule m 48

/-- One compression round: state (a,b,c,d,e,f,g,h) with constant k and
scheduled word w. -/
def sha256Round (s : Nat × Nat × Nat × Nat × Nat × Nat × Nat × Nat)
    (kw : Nat × Nat) : Nat × Nat × Nat × Nat × Nat × Nat × Nat × Nat :=
  match s, kw with
  | (a, b, c, d, e, f, g, h), (k, w) =>
    let t1 := w32 (h + bigSigma1 e + sha256Ch e f g + k + w)
    let t2 := w32 (bigSigma0 a + sha256Maj a b c)
    (w32 (t1 + t2), a, b, c, w32 (d + t1), e, f, g)

/-- Compress one 64-byte block into the running hash words. -/
def sha256Block (hs : List Nat) (block : List Nat) : List Nat :=
  let ws := fullSchedule (bytesToWords block)
  let h0 := hs.getD 0 0
  let h1 := hs.getD 1 0
  let h2 := hs.getD 2 0
  let h3 := hs.getD 3 0
  let h4 := hs.getD 4 0
  let h5 := hs.getD 5 0
  let h6 := hs.getD 6 0
  let h7 := hs.getD 7 0
  match (sha256K.zip ws).foldl sha256Round (h0, h1, h2, h3, h4, h5, h6, h7) with
  | (a, b, c, d, e, f, g, h) =>
    [w32 (h0 + a), w32 (h1 + b), w32 (h2 + c), w32 (h3 + d),
     w32 (h4 + e), w32 (h5 + f), w32 (h6 + g), w32 (h7 + h)]

/-- SHA-256 digest of a byte list, as the 32 digest bytes. -/
def sha256 (msg : List Nat) : List Nat :=
  (((splitChunks (padMessage msg)).foldl sha256Block sha256H0).map (toBytesBE 4)).flatten

/-- UTF-8 encoding of one character. -/
def utf8Char (c : Char) : List Nat :=
  let n := c.toNat
  if n < 128 then [n]
  else if n < 2048 then [192 ||| (n >>> 6), 128 ||| (n &&& 63)]
  else if n < 65536 then
    [224 ||| (n >>> 12), 128 ||| ((n >>> 6) &&& 63), 128 ||| (n &&& 63)]
  else
    [240 ||| (n >>> 18), 128 ||| ((n >>> 12) &&& 63),
     128 ||| ((n >>> 6) &&& 63), 128 ||| (n &&& 63)]

/-- UTF-8 bytes of a string. -/
def strUtf8 (s : String) : List Nat := (s.data.map utf8Char).flatten

/-- FIPS 180-4 test vector: the digest of the three bytes of abc. -/
theorem sha256_test_vector_abc :
    sha256 (strUtf8 "abc") =
      [186, 120, 22, 191, 143, 1, 207, 234, 65, 65, 64, 222, 93, 174, 34, 35,
       176, 3, 97, 163, 150, 23, 122, 156, 180, 16, 255, 97, 242, 0, 21, 173] := by
  decide

/-! ## Cluster router (distributed_inventory.py) -/

/-- The routing client: the ordered endpoint list captured at
construction. -/
structure Client where
  endpoints : List String
deriving DecidableEq, Repr

/-- The constructor: reject an empty endpoint list, otherwise keep the
endpoints in the order supplied. -/
def mkClient (endpoints : List String) : Except String Client :=
  if endpoints = [] then .error "At least one endpoint is required"
  else .ok ⟨endpoints⟩

/-- _select_index: the first 8 digest bytes of the sha256 of the UTF-8
sku bytes, read as an unsigned big-endian integer, modulo the node
count. -/
def selectIndex (c : Client) (sku : String) : Nat :=
  natFromBytesBE ((sha256 (strUtf8 sku)).take 8) % c.endpoints.length

/-- endpoint_for_sku: the endpoint at the selected index. -/
def endpointForSku (c : Client) (sku : String) : String :=
  c.endpoints.getD (selectIndex c sku) ""

example : selectIndex ⟨["node-a", "node-b"]⟩ "SKU-1001" = 1 := by decide

example : endpointForSku ⟨["node-a", "node-b"]⟩ "SKU-1001" = "node-b" := by decide

/-! ## Store operation sequences, for the reachable-state invariant -/

/-- One call against a store, with the arguments the caller passed. -/
inductive StoreOp where
  | add (item : Item)
  | update (sku : String) (name : Option String) (description : Option String)
      (quantity : Option Int)
  | take (sku : String) (amount : Int)
  | query (sku : String)
  | clear

/-- The store state after one call, whether it succeeded or raised. -/
def applyOp (st : Store) : StoreOp → Store
  | .add item => (addItem st item).2
  | .update sku n d q => (updateItem st sku n d q).2
  | .take sku a => (takeItem st sku a).2
  | .query sku => (queryItem st sku).2
  | .clear => clearStore st

/-- The store state after a sequence of calls. -/
def runOps (st : Store) (ops : List StoreOp) : Store := ops.foldl applyOp st

/-- Every stored record has non-negative quantity. -/
def nonnegStore (st : Store) : Prop := ∀ p ∈ st, 0 ≤ p.2.quantity

instance : DecidablePred nonnegStore := fun st =>
  inferInstanceAs (Decidable (∀ p ∈ st, 0 ≤ p.2.quantity))

/-! ## Helper lemmas about the store representation -/

theorem lookupSku_setItem (st : Store) (k : String) (v : Item) :
    lookupSku (setItem st k v) k = (lookupSku st k).map fun _ => v := by
  induction st with
  | nil => rfl
  | cons p rest ih =>
    obtain ⟨a, b⟩ := p
    by_cases h : a = k
    · rw [setItem, if_pos h]
      simp [lookupSku, h]
    · rw [setItem, if_neg h]
      simp only [lookupSku, if_neg h]
      exact ih

theorem lookupSku_append_single (st : Store) (k : String) (v : Item)
    (h : lookupSku st k = none) : lookupSku (st ++ [(k, v)]) k = some v := by
  induction st with
  | nil => simp [lookupSku]
  | cons p rest ih =>
    obtain ⟨a, b⟩ := p
    simp only [lookupSku] at h
    by_cases hp : a = k
    · rw [if_pos hp] at h; exact absurd h (by simp)
    · rw [if_neg hp] at h
      rw [List.cons_append]
      simp only [lookupSku, if_neg hp]
      exact ih h

theorem mem_setItem (st : Store) (k : String) (v : Item) (p : String × Item)
    (h : p ∈ setItem st k v) : p = (k, v) ∨ p ∈ st := by
  induction st with
  | nil => simp [setItem] at h
  | cons q rest ih =>
    obtain ⟨a, b⟩ := q
    rw [setItem] at h
    rcases List.mem_cons.mp h with h1 | h1
    · by_cases ha : a = k
      · rw [if_pos ha] at h1; exact Or.inl h1
      · rw [if_neg ha] at h1; exact Or.inr (List.mem_cons.mpr (Or.inl h1))
    · rcases ih h1 with h2 | h2
      · exact Or.inl h2
      · exact Or.inr (List.mem_cons.mpr (Or.inr h2))

theorem metaGet_append_single (md : CallMetadata) (k v key : String)
    (h : strLower k = key) : metaGet (md ++ [(k, v)]) key = some v := by
  induction md with
  | nil => simp [metaGet, h]
  | cons p rest ih => simp [metaGet, ih]

theorem get?_eq_some_getD (l : List String) (n : Nat) (h : n < l.length) :
    l.get? n = some (l.getD n "") := by
  induction l generalizing n with
  | nil => simp at h
  | cons a rest ih =>
    cases n with
    | zero => rfl
    | succ m =>
      simp only [List.length_cons] at h
      simpa [List.get?, List.getD] using ih m (by omega)

theorem lookupSku_mem (st : Store) (k : String) (v : Item)
    (h : lookupSku st k = some v) : (k, v) ∈ st := by
  induction st with
  | nil => simp [lookupSku] at h
  | cons p rest ih =>
    obtain ⟨a, b⟩ := p
    simp only [lookupSku] at h
    by_cases ha : a = k
    · rw [if_pos ha] at h
      subst ha
      exact List.mem_cons.mpr (Or.inl (by simpa using h.symm))
    · rw [if_neg ha] at h
      exact List.mem_cons.mpr (Or.inr (ih h))

/-! ## Claim theorems -/

/-- C5: for every stored item with quantity q and every amount with
0 < amount ≤ q, take succeeds; the returned copy and the stored record
both have quantity exactly q − amount. -/
theorem take_success_decrements (st : Store) (sku : String) (item : Item)
    (amount : Int)
    (hs : lookupSku st (pyStrip sku) = some item)
    (hne : pyStrip sku ≠ "")
    (h1 : 0 < amount) (h2 : amount ≤ item.quantity) :
    (takeItem st sku amount).1 = .ok { item with quantity := item.quantity - amount } ∧
    lookupSku (takeItem st sku amount).2 (pyStrip sku) =
      some { item with quantity := item.quantity - amount } := by
  have hamt : ¬ amount ≤ 0 := by omega
  have hq : ¬ item.quantity < amount := by omega
  simp [takeItem, hne, hamt, hs, hq, lookupSku_setItem]

/-- C5 witness. -/
theorem take_success_decrements_witness :
    (takeItem [("A", ⟨"A", "n", "d", 5⟩)] "A" 2).1 = .ok ⟨"A", "n", "d", 3⟩ ∧
    lookupSku (takeItem [("A", ⟨"A", "n", "d", 5⟩)] "A" 2).2 (pyStrip "A") =
      some ⟨"A", "n", "d", 3⟩ := by
  have h := take_success_decrements [("A", ⟨"A", "n", "d", 5⟩)] "A"
    ⟨"A", "n", "d", 5⟩ 2 rfl (by decide) (by decide) (by decide)
  simpa using h

/-- C4: for every stored item with quantity q ≥ 0, take with amount > q
raises InsufficientQuantity, leaves the whole store state unchanged
(quantity stays exactly q), and the adapter surfaces the failure as
FailedPrecondition. -/
theorem take_insufficient_fails_no_mutation (st : Store) (sku : String)
    (item : Item) (amount : Int)
    (hs : lookupSku st (pyStrip sku) = some item)
    (hne : pyStrip sku ≠ "")
    (hq0 : 0 ≤ item.quantity) (hgt : item.quantity < amount) :
    takeItem st sku amount =
      (.error (.insufficientQuantity
        ("Item " ++ pyStrip sku ++ " has insufficient quantity (" ++
          toString item.quantity ++ " < " ++ toString amount ++ ")")), st) ∧
    (serviceTakeItem st ⟨sku, amount⟩).1 = .error .failedPrecondition ∧
    lookupSku (takeItem st sku amount).2 (pyStrip sku) = some item := by
  have hamt : ¬ amount ≤ 0 := by omega
  have htake : takeItem st sku amount =
      (.error (.insufficientQuantity
        ("Item " ++ pyStrip sku ++ " has insufficient quantity (" ++
          toString item.quantity ++ " < " ++ toString amount ++ ")")), st) := by
    simp [takeItem, hne, hamt, hs, hgt]
  refine ⟨htake, ?_, ?_⟩
  · simp [serviceTakeItem, htake, storeErrorToStatus]
  · rw [htake]; exact hs

/-- C4 witness. -/
theorem take_insufficient_fails_no_mutation_witness :
    takeItem [("SKU-LIMIT", ⟨"SKU-LIMIT", "Limited", "", 5⟩)] "SKU-LIMIT" 10 =
      (.error (.insufficientQuantity
        "Item SKU-LIMIT has insufficient quantity (5 < 10)"),
        [("SKU-LIMIT", ⟨"SKU-LIMIT", "Limited", "", 5⟩)]) ∧
    (serviceTakeItem [("SKU-LIMIT", ⟨"SKU-LIMIT", "Limited", "", 5⟩)]
        ⟨"SKU-LIMIT", 10⟩).1 = .error .failedPrecondition ∧
    lookupSku (takeItem [("SKU-LIMIT", ⟨"SKU-LIMIT", "Limited", "", 5⟩)]
        "SKU-LIMIT" 10).2 (pyStrip "SKU-LIMIT") =
      some ⟨"SKU-LIMIT", "Limited", "", 5⟩ := by
  have h := take_insufficient_fails_no_mutation
    [("SKU-LIMIT", ⟨"SKU-LIMIT", "Limited", "", 5⟩)] "SKU-LIMIT"
    ⟨"SKU-LIMIT", "Limited", "", 5⟩ 10 rfl (by decide) (by decide) (by decide)
  simpa using h

/-- C1 counterexample: an update with a provided negative quantity does
fail with InvalidArgument, but the provided name has already been
written into the stored record, so the item is not left entirely
unchanged. -/
theorem update_negative_quantity_counterexample :
    (updateItem [("A", ⟨"A", "old", "d", 5⟩)] "A" (some "new") none (some (-1))).1
      = .error (.invalidArgument "Quantity must be non-negative") ∧
    lookupSku (updateItem [("A", ⟨"A", "old", "d", 5⟩)] "A"
        (some "new") none (some (-1))).2 "A" = some ⟨"A", "new", "d", 5⟩ ∧
    (⟨"A", "new", "d", 5⟩ : Item) ≠ ⟨"A", "old", "d", 5⟩ := by
  refine ⟨rfl, rfl, by decide⟩

/-- C1 amended: an update with a provided quantity < 0 fails with
InvalidArgument and leaves the stored quantity unchanged, but any name
or description provided in the same call has already been applied to
the stored record when the error is raised. -/
theorem update_negative_quantity_applies_name_desc (st : Store) (sku : String)
    (item : Item) (n d : Option String) (q : Int)
    (hs : lookupSku st (pyStrip sku) = some item)
    (hne : pyStrip sku ≠ "") (hq : q < 0) :
    (updateItem st sku n d (some q)).1 =
      .error (.invalidArgument "Quantity must be non-negative") ∧
    lookupSku (updateItem st sku n d (some q)).2 (pyStrip sku) =
      some { item with name := n.getD item.name,
                       description := d.getD item.description } := by
  cases n <;> cases d <;>
    simp [updateItem, hne, hs, hq, lookupSku_setItem, Option.getD]

/-- C1 witness. -/
theorem update_negative_quantity_applies_name_desc_witness :
    (updateItem [("A", ⟨"A", "old", "odesc", 5⟩)] "A"
        (some "new") (some "ndesc") (some (-1))).1 =
      .error (.invalidArgument "Quantity must be non-negative") ∧
    lookupSku (updateItem [("A", ⟨"A", "old", "odesc", 5⟩)] "A"
        (some "new") (some "ndesc") (some (-1))).2 (pyStrip "A") =
      some ⟨"A", "new", "ndesc", 5⟩ := by
  have h := update_negative_quantity_applies_name_desc
    [("A", ⟨"A", "old", "odesc", 5⟩)] "A" ⟨"A", "old", "odesc", 5⟩
    (some "new") (some "ndesc") (-1) rfl (by decide) (by decide)
  simpa using h

/-- C7 counterexample: a valid item whose sku carries surrounding
whitespace is stored and queried back with the trimmed sku, so the
queried Item is not equal to the added one. -/
theorem add_query_roundtrip_counterexample :
    (addItem [] ⟨" A ", "n", "d", 1⟩).1 = .ok ⟨"A", "n", "d", 1⟩ ∧
    (queryItem (addItem [] ⟨" A ", "n", "d", 1⟩).2 " A ").1 =
      .ok ⟨"A", "n", "d", 1⟩ ∧
    (⟨"A", "n", "d", 1⟩ : Item) ≠ ⟨" A ", "n", "d", 1⟩ := by
  refine ⟨rfl, rfl, by decide⟩

/-- C7 amended: for every valid item not already present, add succeeds
and stores the item with its sku trimmed, and a following query with
the original sku returns exactly that stored Item; when the sku of the
added item is already trimmed, the queried Item equals the added one. -/
theorem add_query_roundtrip_trimmed (st : Store) (item : Item)
    (h1 : pyStrip item.sku ≠ "") (h2 : 0 ≤ item.quantity)
    (h3 : lookupSku st (pyStrip item.sku) = none) :
    (addItem st item).1 = .ok { item with sku := pyStrip item.sku } ∧
    (queryItem (addItem st item).2 item.sku).1 =
      .ok { item with sku := pyStrip item.sku } ∧
    (pyStrip item.sku = item.sku →
      (queryItem (addItem st item).2 item.sku).1 = .ok item) := by
  have hq : ¬ item.quantity < 0 := by omega
  have hadd : addItem st item =
      (.ok { item with sku := pyStrip item.sku },
        st ++ [(pyStrip item.sku, { item with sku := pyStrip item.sku })]) := by
    simp [addItem, h1, hq, h3]
  have hlook : lookupSku (addItem st item).2 (pyStrip item.sku) =
      some { item with sku := pyStrip item.sku } := by
    rw [hadd]
    exact lookupSku_append_single st _ _ h3
  have hquery : (queryItem (addItem st item).2 item.sku).1 =
      .ok { item with sku := pyStrip item.sku } := by
    simp [queryItem, h1, hlook]
  refine ⟨by rw [hadd], hquery, fun ht => ?_⟩
  rw [hquery]
  have : ({ item with sku := pyStrip item.sku } : Item) = item := by
    cases item
    simp_all
  rw [this]

/-- C7 witness. -/
theorem add_query_roundtrip_trimmed_witness :
    (addItem [] ⟨"A", "n", "d", 1⟩).1 = .ok ⟨"A", "n", "d", 1⟩ ∧
    (queryItem (addItem [] ⟨"A", "n", "d", 1⟩).2 "A").1 = .ok ⟨"A", "n", "d", 1⟩ := by
  have h := add_query_roundtrip_trimmed [] ⟨"A", "n", "d", 1⟩
    (by decide) (by decide) rfl
  exact ⟨by simpa using h.1, by simpa using h.2.2 (by decide)⟩

/-- C2: in the UpdateItem handler, with no update-quantity entry in the
call metadata a request quantity of exactly 0 leaves the stored
quantity unchanged, while with metadata carrying update-quantity true
the same request sets the stored quantity to 0. -/
theorem service_update_zero_quantity_flag (st : Store) (k : String)
    (item : Item) (md₁ md₂ : CallMetadata)
    (hk : lookupSku st k = some item) (hstrip : pyStrip k = k) (hne : k ≠ "") :
    (metaGet md₁ "update-quantity" = none →
      (serviceUpdateItem st md₁ ⟨k, "", "", 0⟩).1 = .ok item ∧
      lookupSku (serviceUpdateItem st md₁ ⟨k, "", "", 0⟩).2 k = some item) ∧
    (metaGet md₂ "update-quantity" = some "true" →
      (serviceUpdateItem st md₂ ⟨k, "", "", 0⟩).1 = .ok { item with quantity := 0 } ∧
      lookupSku (serviceUpdateItem st md₂ ⟨k, "", "", 0⟩).2 k =
        some { item with quantity := 0 }) := by
  constructor
  · intro h₁
    have hf : forceQuantityFlag md₁ = false := by
      unfold forceQuantityFlag
      rw [h₁]
      rfl
    have hupd : updateItem st k none none none = (.ok item, setItem st k item) := by
      simp [updateItem, hstrip, hne, hk]
    have hlook : lookupSku (setItem st k item) k = some item := by
      rw [lookupSku_setItem, hk]
      rfl
    constructor
    · simp [serviceUpdateItem, hf, hupd]
    · simp [serviceUpdateItem, hf, hupd, hlook]
  · intro h₂
    have hf : forceQuantityFlag md₂ = true := by
      unfold forceQuantityFlag
      rw [h₂]
      rfl
    have hq : ¬ (0 : Int) < 0 := by omega
    have hupd : updateItem st k none none (some 0) =
        (.ok { item with quantity := 0 }, setItem st k { item with quantity := 0 }) := by
      simp [updateItem, hstrip, hne, hk, hq]
    have hlook : lookupSku (setItem st k { item with quantity := 0 }) k =
        some { item with quantity := 0 } := by
      rw [lookupSku_setItem, hk]
      rfl
    constructor
    · simp [serviceUpdateItem, hf, hupd]
    · simp [serviceUpdateItem, hf, hupd, hlook]

/-- C2 witness. -/
theorem service_update_zero_quantity_flag_witness :
    ((serviceUpdateItem [("A", ⟨"A", "n", "d", 5⟩)] [] ⟨"A", "", "", 0⟩).1
        = .ok ⟨"A", "n", "d", 5⟩ ∧
      lookupSku (serviceUpdateItem [("A", ⟨"A", "n", "d", 5⟩)] []
        ⟨"A", "", "", 0⟩).2 "A" = some ⟨"A", "n", "d", 5⟩) ∧
    ((serviceUpdateItem [("A", ⟨"A", "n", "d", 5⟩)]
        [("update-quantity", "true")] ⟨"A", "", "", 0⟩).1 = .ok ⟨"A", "n", "d", 0⟩ ∧
      lookupSku (serviceUpdateItem [("A", ⟨"A", "n", "d", 5⟩)]
        [("update-quantity", "true")] ⟨"A", "", "", 0⟩).2 "A" =
        some ⟨"A", "n", "d", 0⟩) := by
  have h := service_update_zero_quantity_flag [("A", ⟨"A", "n", "d", 5⟩)] "A"
    ⟨"A", "n", "d", 5⟩ [] [("update-quantity", "true")] rfl (by decide) (by decide)
  exact ⟨by simpa using h.1 rfl, by simpa using h.2 rfl⟩

/-- C8: the facade update with an explicitly supplied quantity of 0 on
an existing item queries the item, fills the omitted fields from it,
issues the update with the forcing flag appended to the metadata, and
the stored quantity becomes 0. -/
theorem facade_update_zero_sets_quantity (st : Store) (k : String)
    (item : Item) (md : CallMetadata)
    (hk : lookupSku st k = some item) (hstrip : pyStrip k = k) (hne : k ≠ "") :
    (facadeUpdateItem st k none none (some 0) md).1 = .ok { item with quantity := 0 } ∧
    lookupSku (facadeUpdateItem st k none none (some 0) md).2 k =
      some { item with quantity := 0 } ∧
    metaGet (extendMetadata md [("update-quantity", "true")]) "update-quantity" =
      some "true" := by
  have hmeta : metaGet (extendMetadata md [("update-quantity", "true")])
      "update-quantity" = some "true" :=
    metaGet_append_single md _ _ _ rfl
  have hf : forceQuantityFlag (extendMetadata md [("update-quantity", "true")]) = true := by
    unfold forceQuantityFlag
    rw [hmeta]
    rfl
  have hquery : serviceQueryItem st ⟨k⟩ = (.ok item, st) := by
    simp [serviceQueryItem, queryItem, hstrip, hne, hk]
  have hq : ¬ (0 : Int) < 0 := by omega
  have hlook : lookupSku (setItem st k { item with quantity := 0 }) k =
      some { item with quantity := 0 } := by
    rw [lookupSku_setItem, hk]
    rfl
  by_cases hn : item.name = "" <;> by_cases hd : item.description = "" <;>
    · have hupd : updateItem st k
          (if item.name = "" then none else some item.name)
          (if item.description = "" then none else some item.description)
          (some 0) =
          (.ok { item with quantity := 0 }, setItem st k { item with quantity := 0 }) := by
        simp only [hn, hd]
        first
        | (simp [updateItem, hstrip, hne, hk, hq]
           constructor <;> (cases item; simp_all))
        | simp [updateItem, hstrip, hne, hk, hq]
      refine ⟨?_, ?_, hmeta⟩ <;>
        simp [facadeUpdateItem, hquery, serviceUpdateItem, hf, hupd, hlook]

/-- C8 witness. -/
theorem facade_update_zero_sets_quantity_witness :
    (facadeUpdateItem [("A", ⟨"A", "n", "d", 5⟩)] "A" none none (some 0) []).1
      = .ok ⟨"A", "n", "d", 0⟩ ∧
    lookupSku (facadeUpdateItem [("A", ⟨"A", "n", "d", 5⟩)] "A"
        none none (some 0) []).2 "A" = some ⟨"A", "n", "d", 0⟩ ∧
    metaGet (extendMetadata [] [("update-quantity", "true")]) "update-quantity" =
      some "true" := by
  have h := facade_update_zero_sets_quantity [("A", ⟨"A", "n", "d", 5⟩)] "A"
    ⟨"A", "n", "d", 5⟩ [] rfl (by decide) (by decide)
  simpa using h

/-- C3: the routing function selects the endpoint whose index is the
unsigned big-endian integer of the first 8 bytes of the SHA-256 digest
of the UTF-8 sku bytes, modulo the endpoint count, in supplied order;
it is a pure function of the sku and the ordered endpoint list. -/
theorem endpoint_for_sku_hash_spec (c : Client) (sku : String)
    (h : c.endpoints ≠ []) :
    c.endpoints.get? (natFromBytesBE ((sha256 (strUtf8 sku)).take 8) %
        c.endpoints.length) = some (endpointForSku c sku) ∧
    ∀ c' : Client, c'.endpoints = c.endpoints →
      endpointForSku c' sku = endpointForSku c sku := by
  constructor
  · have hlen : 0 < c.endpoints.length := List.length_pos.mpr h
    exact get?_eq_some_getD _ _ (Nat.mod_lt _ hlen)
  · intro c' hc
    simp [endpointForSku, selectIndex, hc]

/-- C3 witness. -/
theorem endpoint_for_sku_hash_spec_witness :
    (["node-a", "node-b"] : List String).get?
        (natFromBytesBE ((sha256 (strUtf8 "SKU-1001")).take 8) % 2) =
      some (endpointForSku ⟨["node-a", "node-b"]⟩ "SKU-1001") ∧
    endpointForSku ⟨["node-a", "node-b"]⟩ "SKU-1001" = "node-b" := by
  have h := endpoint_for_sku_hash_spec ⟨["node-a", "node-b"]⟩ "SKU-1001"
    (by decide)
  exact ⟨by simpa using h.1, by decide⟩

/-- Replacing a record with one of non-negative quantity preserves the
store invariant. -/
theorem nonneg_setItem (st : Store) (k : String) (v : Item)
    (h : nonnegStore st) (hv : 0 ≤ v.quantity) : nonnegStore (setItem st k v) := by
  intro p hp
  rcases mem_setItem st k v p hp with rfl | hp'
  · exact hv
  · exact h p hp'

/-- Every single store call preserves the quantity invariant, on both
its success and its failure paths. -/
theorem nonneg_applyOp (st : Store) (op : StoreOp) (h : nonnegStore st) :
    nonnegStore (applyOp st op) := by
  cases op with
  | add item =>
    by_cases h1 : pyStrip item.sku = ""
    · simpa [applyOp, addItem, h1] using h
    · by_cases h2 : item.quantity < 0
      · simpa [applyOp, addItem, h1, h2] using h
      · cases hlk : lookupSku st (pyStrip item.sku) with
        | some w => simpa [applyOp, addItem, h1, h2, hlk] using h
        | none =>
          simp only [applyOp, addItem, if_neg h1, if_neg h2, hlk]
          intro p hp
          rcases List.mem_append.mp hp with hp' | hp'
          · exact h p hp'
          · have hp2 : p = (pyStrip item.sku, { item with sku := pyStrip item.sku }) := by
              simpa using hp'
            rw [hp2]
            simpa using by omega
  | update sku n d q =>
    by_cases h1 : pyStrip sku = ""
    · simpa [applyOp, updateItem, h1] using h
    · cases hlk : lookupSku st (pyStrip sku) with
      | none => simpa [applyOp, updateItem, h1, hlk] using h
      | some item₀ =>
        have h0 : 0 ≤ item₀.quantity := h _ (lookupSku_mem _ _ _ hlk)
        cases q with
        | none =>
          cases n <;> cases d <;>
            · simp only [applyOp, updateItem, if_neg h1, hlk]
              exact nonneg_setItem _ _ _ h h0
        | some qv =>
          by_cases h2 : qv < 0
          · cases n <;> cases d <;>
              · simp only [applyOp, updateItem, if_neg h1, hlk, if_pos h2]
                exact nonneg_setItem _ _ _ h h0
          · cases n <;> cases d <;>
              · simp only [applyOp, updateItem, if_neg h1, hlk, if_neg h2]
                exact nonneg_setItem _ _ _ h (by simp; omega)
  | take sku amount =>
    by_cases h1 : pyStrip sku = ""
    · simpa [applyOp, takeItem, h1] using h
    · by_cases h2 : amount ≤ 0
      · simpa [applyOp, takeItem, h1, h2] using h
      · cases hlk : lookupSku st (pyStrip sku) with
        | none => simpa [applyOp, takeItem, h1, h2, hlk] using h
        | some item =>
          have h0 : 0 ≤ item.quantity := h _ (lookupSku_mem _ _ _ hlk)
          by_cases h3 : item.quantity < amount
          · simpa [applyOp, takeItem, h1, h2, hlk, h3] using h
          · simp only [applyOp, takeItem, if_neg h1, if_neg h2, hlk, if_neg h3]
            exact nonneg_setItem _ _ _ h (by simp; omega)
  | query sku =>
    by_cases h1 : pyStrip sku = ""
    · simpa [applyOp, queryItem, h1] using h
    · cases hlk : lookupSku st (pyStrip sku) with
      | none => simpa [applyOp, queryItem, h1, hlk] using h
      | some item => simpa [applyOp, queryItem, h1, hlk] using h
  | clear =>
    intro p hp
    simp [applyOp, clearStore] at hp

/-- C6: starting from the empty store, no sequence of store calls can
produce a stored item with negative quantity. -/
theorem store_quantities_nonneg (ops : List StoreOp) :
    nonnegStore (runOps [] ops) := by
  suffices hgen : ∀ st : Store, nonnegStore st → nonnegStore (runOps st ops) by
    refine hgen [] ?_
    intro p hp
    simp at hp
  induction ops with
  | nil => intro st hst; exact hst
  | cons op rest ih => intro st hst; exact ih _ (nonneg_applyOp st op hst)

/-- C6 witness. -/
theorem store_quantities_nonneg_witness :
    nonnegStore (runOps []
      [.add ⟨"A", "n", "d", 3⟩, .take "A" 2, .update "A" none none (some (-7))]) :=
  store_quantities_nonneg
    [.add ⟨"A", "n", "d", 3⟩, .take "A" 2, .update "A" none none (some (-7))]

/-- C9: InvalidArgument validation precedes existence checks in every
store operation: add validates sku and quantity before the AlreadyExists
check, take validates the amount before the NotFound check, and update
and query validate the sku before the NotFound check. -/
theorem invalid_argument_precedence :
    (∀ (st : Store) (item w : Item),
        lookupSku st (pyStrip item.sku) = some w → pyStrip item.sku ≠ "" →
        item.quantity < 0 →
        addItem st item =
          (.error (.invalidArgument "Quantity must be non-negative"), st)) ∧
    (∀ (st : Store) (item : Item), pyStrip item.sku = "" →
        addItem st item = (.error (.invalidArgument "SKU must not be empty"), st)) ∧
    (∀ (st : Store) (sku : String) (amount : Int),
        pyStrip sku ≠ "" → amount ≤ 0 → lookupSku st (pyStrip sku) = none →
        takeItem st sku amount =
          (.error (.invalidArgument "Take amount must be positive"), st)) ∧
    (∀ (st : Store) (sku : String) (n d : Option String) (q : Option Int),
        pyStrip sku = "" →
        updateItem st sku n d q =
          (.error (.invalidArgument "SKU must not be empty"), st)) ∧
    (∀ (st : Store) (sku : String), pyStrip sku = "" →
        queryItem st sku = (.error (.invalidArgument "SKU must not be empty"), st)) := by
  refine ⟨?_, ?_, ?_, ?_, ?_⟩
  · intro st item w hw hne hq
    simp [addItem, hne, hq]
  · intro st item hsk
    simp [addItem, hsk]
  · intro st sku amount hne hamt hlk
    simp [takeItem, hne, hamt]
  · intro st sku n d q hsk
    simp [updateItem, hsk]
  · intro st sku hsk
    simp [queryItem, hsk]

/-- C9 witness. -/
theorem invalid_argument_precedence_witness :
    addItem [("A", ⟨"A", "n", "d", 1⟩)] ⟨"A", "x", "y", -2⟩ =
      (.error (.invalidArgument "Quantity must be non-negative"),
        [("A", ⟨"A", "n", "d", 1⟩)]) ∧
    takeItem [] "B" 0 =
      (.error (.invalidArgument "Take amount must be positive"), []) ∧
    updateItem [] "  " none none none =
      (.error (.invalidArgument "SKU must not be empty"), []) ∧
    queryItem [] "" = (.error (.invalidArgument "SKU must not be empty"), []) := by
  have h := invalid_argument_precedence
  exact ⟨h.1 _ _ ⟨"A", "n", "d", 1⟩ rfl (by decide) (by decide),
    h.2.2.1 _ _ _ (by decide) (by decide) rfl,
    h.2.2.2.1 _ _ none none none (by decide),
    h.2.2.2.2 _ _ (by decide)⟩

/-- C10: constructing the cluster client with an empty endpoint list
fails with the required error; every successfully constructed client
has a non-empty endpoint list and the routing index is always a valid
position, so the modulo is never taken by zero. -/
theorem client_construction_nonempty :
    mkClient [] = .error "At least one endpoint is required" ∧
    ∀ (es : List String) (c : Client), mkClient es = .ok c →
      0 < c.endpoints.length ∧
      ∀ sku : String, selectIndex c sku < c.endpoints.length := by
  refine ⟨rfl, ?_⟩
  intro es c h
  by_cases he : es = []
  · subst he
    exact absurd h (by simp [mkClient])
  · rw [mkClient, if_neg he] at h
    injection h with h2
    subst h2
    have hlen : 0 < (Client.mk es).endpoints.length := by
      simpa using List.length_pos.mpr he
    exact ⟨hlen, fun sku => Nat.mod_lt _ hlen⟩

/-- C10 witness. -/
theorem client_construction_nonempty_witness :
    mkClient [] = .error "At least one endpoint is required" ∧
    0 < (Client.mk ["node-a"]).endpoints.length ∧
    selectIndex ⟨["node-a"]⟩ "SKU-1001" < 1 := by
  have h := client_construction_nonempty
  have h2 := h.2 ["node-a"] ⟨["node-a"]⟩ rfl
  exact ⟨h.1, h2.1, by simpa using h2.2 "SKU-1001"⟩
